import Mathlib

/-!
Shallow embedding of the browser-automation executor in `src/main.py`
(`execute_actions` and the credential-substitution pass of `interact`).

Actions are Python dicts; we model them as association lists of JSON-ish
values. Browser operations are modelled by an `Env` oracle that fixes the
outcome of each page-level primitive (navigation, selector waits, clicks,
attribute reads, screenshots). A Python exception is an `Except.error`
carrying the exception's message; `try/except` blocks are `match`es on
that `Except`.
-/

set_option autoImplicit false

namespace BrowserAgent

/-- A JSON-ish field value of an action dict (the planner emits strings and
numbers). -/
inductive JValue where
  | str (s : String)
  | num (n : Int)
  deriving DecidableEq, Repr

/-- An action is a Python dict: an association list keyed by strings. -/
abbrev Action := List (String × JValue)

/-- `action[k]` lookup, first occurrence (dict keys are unique in practice). -/
def lookupField : Action → String → Option JValue
  | [], _ => none
  | (k', v) :: rest, k => if k' = k then some v else lookupField rest k

/-- `action[k] = v`: update the first occurrence of `k`, append if absent
(mirrors Python dict assignment). -/
def setField : Action → String → JValue → Action
  | [], k, v => [(k, v)]
  | (k', v') :: rest, k, v =>
      if k' = k then (k, v) :: rest else (k', v') :: setField rest k v

/-- `action[k]` where a missing key raises `KeyError` (message modelled as
`KeyError: k`). -/
def getField (a : Action) (k : String) : Except String JValue :=
  match lookupField a k with
  | none => .error ("KeyError: " ++ k)
  | some v => .ok v

/-- `action[k]` where the consumer needs a string (a non-string raises at the
browser call; modelled as a `TypeError`). -/
def getStrField (a : Action) (k : String) : Except String String :=
  match lookupField a k with
  | none => .error ("KeyError: " ++ k)
  | some (.str s) => .ok s
  | some (.num _) => .error ("TypeError: " ++ k)

/-- The three attributes read off the like button by `get_attribute`
(`None` when the attribute is absent). -/
structure ButtonAttrs where
  aria_pressed : Option String
  aria_label : Option String
  classes : Option String
  deriving DecidableEq, Repr

/-- Python `x or "null"`: `None` and the empty string are falsy. -/
def orNull : Option String → String
  | none => "null"
  | some s => if s = "" then "null" else s

/-- A `current_state` / `new_state` snapshot dict built from the three
attributes, each defaulted to `"null"`. -/
structure Snapshot where
  aria_pressed : String
  aria_label : String
  classes : String
  deriving DecidableEq, Repr

/-- Build the snapshot dict exactly as the handler does. -/
def snapOf (b : ButtonAttrs) : Snapshot :=
  { aria_pressed := orNull b.aria_pressed
    aria_label := orNull b.aria_label
    classes := orNull b.classes }

/-- The dict returned by the `like_post` handler:
`{"success": ..., "message": ..., "debug": {...}}`. -/
structure LikeReturn where
  success : Bool
  message : String
  debugBefore : Option Snapshot
  debugAfter : Option Snapshot
  debugError : Option String
  debugScreenshot : Option String
  deriving DecidableEq, Repr

/-- One `step_result` dict: `{"action", "success"}` plus `error` and a
best-effort `screenshot` on failure. -/
structure StepResult where
  action : Action
  success : Bool
  error : Option String
  screenshot : Option String
  deriving DecidableEq, Repr

/-- The `AutomationResponse` pydantic model (its `data` field only ever holds
`{"steps": [...]}`). -/
structure AutomationResponse where
  success : Bool
  message : String
  data : Option (List StepResult)
  screenshot : Option String
  deriving DecidableEq, Repr

/-- What `execute_actions` can return: the pydantic response or, on the
`like_post` short circuit, the handler's own dict. -/
inductive ExecResponse where
  | auto (r : AutomationResponse)
  | like (r : LikeReturn)
  deriving DecidableEq, Repr

/-- Outcome of one run of `execute_actions`, with the teardown flags of the
`finally` block (context/browser closed). -/
structure ExecResult where
  response : ExecResponse
  contextClosed : Bool
  browserClosed : Bool
  deriving DecidableEq, Repr

/-- Oracle fixing the outcome of every browser primitive for one request:
whether each wait/click/fill succeeds, how many feed posts exist, the like
button's attributes before and after the click, and the screenshot bytes
(`none` when `page.screenshot` raises). -/
structure Env where
  gotoStartOk : Bool
  gotoStartErr : String
  networkIdleOk : Bool
  gotoOk : String → Bool
  waitSelOk : String → Bool
  clickOk : String → Bool
  fillOk : String → Bool
  pressOk : String → String → Bool
  evalOk : Bool
  feedOk : Bool
  postCount : Nat
  primaryBtn : Nat → Bool
  fallbackBtn : Nat → Bool
  beforeAttrs : Nat → ButtonAttrs
  afterAttrs : Nat → ButtonAttrs
  screenshot : Option String

/-- Message of the screenshot exception when `page.screenshot` fails. -/
def screenshotFailMsg : String := "Page.screenshot: screenshot failed"

/-- Message of a `wait_for_selector` visibility timeout. -/
def waitTimeoutMsg (sel : String) : String :=
  "Timeout 10000ms exceeded waiting for selector " ++ sel

/-- The explicit message raised by a `press` action with no selector. -/
def pressNeedsSelectorMsg : String := "Press action requires a selector parameter"

/-- Message raised when the like-button state comparison fails. -/
def stateUnchangedMsg : String :=
  "Like action didn't register - button state unchanged"

/-- Message raised when the feed holds no posts. -/
def noPostsMsg : String := "No posts found - may need different selectors"

/-- `action.get("index", 1)` followed by integer arithmetic (a string value
would raise a `TypeError` at `- 1`). -/
def getIndexDefault (a : Action) : Except String Int :=
  match lookupField a "index" with
  | none => .ok 1
  | some (.num n) => .ok n
  | some (.str _) => .error "TypeError: unsupported operand for index arithmetic"

/-- Python list indexing `posts[i]` on a list of length `n`: negative indices
wrap once, anything below `-n` raises `IndexError`. -/
def pyIndex (i : Int) (n : Nat) : Except String Nat :=
  if 0 ≤ i ∧ i < (n : Int) then .ok i.toNat
  else if -(n : Int) ≤ i ∧ i < 0 then .ok ((n : Int) + i).toNat
  else .error "IndexError: list index out of range"

/-- `post_index = min(action.get("index", 1) - 1, len(posts) - 1)` followed by
`posts[post_index]`: the post the handler targets. -/
def resolvePostIndex (env : Env) (a : Action) : Except String Nat :=
  match getIndexDefault a with
  | .error e => .error e
  | .ok k => pyIndex (min (k - 1) ((env.postCount : Int) - 1)) env.postCount

/-- Body of the `like_post` handler's inner `try`: wait for the feed,
enumerate posts, clamp the index, find the like button, snapshot, click,
snapshot again, and verify the state change. Errors are the raised
exception messages. -/
def likePostBody (env : Env) (a : Action) : Except String LikeReturn :=
  if ¬ env.feedOk then
    .error (waitTimeoutMsg ".scaffold-finite-scroll__content")
  else if env.postCount = 0 then
    .error noPostsMsg
  else
    match resolvePostIndex env a with
    | .error e => .error e
    | .ok i =>
        if ¬ (env.primaryBtn i || env.fallbackBtn i) then
          .error "Like button not found"
        else
          let current := snapOf (env.beforeAttrs i)
          let newState := snapOf (env.afterAttrs i)
          if newState.aria_pressed = current.aria_pressed ∨
              newState.aria_label = current.aria_label then
            .error stateUnchangedMsg
          else
            .ok { success := true
                  message := "Successfully liked post"
                  debugBefore := some current
                  debugAfter := some newState
                  debugError := none
                  debugScreenshot := none }

/-- The whole `like_post` handler: the inner `except` turns any raised
message into a failure dict carrying a diagnostic screenshot — but if
`page.screenshot` itself raises there, that exception escapes to the
step-level handler (`Except.error`). -/
def likePost (env : Env) (a : Action) : Except String LikeReturn :=
  match likePostBody env a with
  | .ok r => .ok r
  | .error e =>
      match env.screenshot with
      | some s =>
          .ok { success := false
                message := e
                debugBefore := none
                debugAfter := none
                debugError := some e
                debugScreenshot := some s }
      | none => .error screenshotFailMsg

/-- `navigate` handler: `page.goto(url, wait_until="networkidle")`. -/
def doNavigate (env : Env) (a : Action) : Except String Unit := do
  let url ← getStrField a "url"
  if ¬ env.gotoOk url then throw ("Page.goto failed: " ++ url)

/-- `click` handler: wait for the selector visible, then click. -/
def doClick (env : Env) (a : Action) : Except String Unit := do
  let sel ← getStrField a "selector"
  if ¬ env.waitSelOk sel then throw (waitTimeoutMsg sel)
  if ¬ env.clickOk sel then throw ("Page.click failed: " ++ sel)

/-- `fill` handler: wait for the selector visible, then fill with `text`. -/
def doFill (env : Env) (a : Action) : Except String Unit := do
  let sel ← getStrField a "selector"
  if ¬ env.waitSelOk sel then throw (waitTimeoutMsg sel)
  let _text ← getStrField a "text"
  if ¬ env.fillOk sel then throw ("Page.fill failed: " ++ sel)

/-- `press` handler: the selector-presence check comes first and raises the
explicit message; then wait visible and send the key. -/
def doPress (env : Env) (a : Action) : Except String Unit :=
  if lookupField a "selector" = none then .error pressNeedsSelectorMsg
  else
    match getStrField a "selector" with
    | .error e => .error e
    | .ok sel =>
        if ¬ env.waitSelOk sel then .error (waitTimeoutMsg sel)
        else
          match getStrField a "key" with
          | .error e => .error e
          | .ok key =>
              if ¬ env.pressOk sel key then .error ("Page.press failed: " ++ sel)
              else .ok ()

/-- `wait` handler: `page.wait_for_timeout(action["timeout"])` — only the
field access can fail. -/
def doWait (a : Action) : Except String Unit := do
  let _t ← getField a "timeout"
  pure ()

/-- `scroll` handler: the f-string reads `action["pixels"]` and the script is
evaluated (`direction` is never consulted). -/
def doScroll (env : Env) (a : Action) : Except String Unit := do
  let _px ← getField a "pixels"
  if ¬ env.evalOk then throw "Page.evaluate failed"

/-- `login` handler: wait+fill username, wait+fill password, wait+click
submit, in that order. -/
def doLogin (env : Env) (a : Action) : Except String Unit := do
  let us ← getStrField a "username_selector"
  if ¬ env.waitSelOk us then throw (waitTimeoutMsg us)
  let _u ← getStrField a "username"
  if ¬ env.fillOk us then throw ("Page.fill failed: " ++ us)
  let ps ← getStrField a "password_selector"
  if ¬ env.waitSelOk ps then throw (waitTimeoutMsg ps)
  let _p ← getStrField a "password"
  if ¬ env.fillOk ps then throw ("Page.fill failed: " ++ ps)
  let ss ← getStrField a "submit_selector"
  if ¬ env.waitSelOk ss then throw (waitTimeoutMsg ss)
  if ¬ env.clickOk ss then throw ("Page.click failed: " ++ ss)

/-- `search` handler: wait+fill the search box, then click submit (no
visibility wait before the submit click in the source). -/
def doSearch (env : Env) (a : Action) : Except String Unit := do
  let ss ← getStrField a "search_selector"
  if ¬ env.waitSelOk ss then throw (waitTimeoutMsg ss)
  let _q ← getStrField a "query"
  if ¬ env.fillOk ss then throw ("Page.fill failed: " ++ ss)
  let sub ← getStrField a "submit_selector"
  if ¬ env.clickOk sub then throw ("Page.click failed: " ++ sub)

/-- The `elif` dispatch chain on `action["type"]`. `.ok (some r)` is the
`like_post` handler returning its own dict; `.ok none` is a normally
completed step (including the silent fall-through for unknown kinds);
`.error` is a raised exception caught at step level. -/
def dispatch (env : Env) (a : Action) : Except String (Option LikeReturn) :=
  match getField a "type" with
  | .error e => .error e
  | .ok tv =>
      if tv = .str "navigate" then (doNavigate env a).map fun _ => none
      else if tv = .str "click" then (doClick env a).map fun _ => none
      else if tv = .str "fill" then (doFill env a).map fun _ => none
      else if tv = .str "press" then (doPress env a).map fun _ => none
      else if tv = .str "wait" then (doWait a).map fun _ => none
      else if tv = .str "scroll" then (doScroll env a).map fun _ => none
      else if tv = .str "login" then (doLogin env a).map fun _ => none
      else if tv = .str "search" then (doSearch env a).map fun _ => none
      else if tv = .str "like_post" then (likePost env a).map some
      else .ok none

/-- Outcome of the `for action in actions` loop: normal completion with the
accumulated `results["steps"]`, or the `like_post` short circuit (the steps
accumulated so far are abandoned; kept here to state what was appended). -/
inductive LoopOutcome where
  | completed (steps : List StepResult)
  | shortCircuit (steps : List StepResult) (r : LikeReturn)
  deriving DecidableEq, Repr

/-- The step loop. A handler success appends `{action, success=True}`; a
raised exception is caught, recorded with the message and a best-effort
screenshot, and the loop continues; a `like_post` return value is returned
from the whole function immediately. -/
def runLoop (env : Env) : List Action → List StepResult → LoopOutcome
  | [], acc => .completed acc
  | a :: rest, acc =>
      match dispatch env a with
      | .ok (some r) => .shortCircuit acc r
      | .ok none =>
          runLoop env rest
            (acc ++ [{ action := a, success := true, error := none, screenshot := none }])
      | .error e =>
          runLoop env rest
            (acc ++ [{ action := a, success := false, error := some e,
                       screenshot := env.screenshot }])

/-- `data:image/png;base64,<...>` wrapping of a screenshot. -/
def dataUrl (s : String) : String := "data:image/png;base64," ++ s

/-- The initial navigation: both `page.goto` and the `networkidle` wait sit
in one `try` whose handler raises an `HTTPException` (stringified as
`500: <detail>`), which the outer handler later catches. -/
def navigateStart (env : Env) : Option String → Except String Unit
  | none => .ok ()
  | some _ =>
      if ¬ env.gotoStartOk then
        .error ("500: Failed to navigate to starting URL: " ++ env.gotoStartErr)
      else if ¬ env.networkIdleOk then
        .error ("500: Failed to navigate to starting URL: Timeout 10000ms exceeded.")
      else .ok ()

/-- Body of `execute_actions`' outer `try`: initial navigation, the step
loop, then the final full-page screenshot and the success response (or the
`like_post` dict passed straight through). -/
def execBody (env : Env) (actions : List Action) (startingUrl : Option String) :
    Except String ExecResponse :=
  match navigateStart env startingUrl with
  | .error e => .error e
  | .ok _ =>
      match runLoop env actions [] with
      | .shortCircuit _ r => .ok (.like r)
      | .completed steps =>
          match env.screenshot with
          | none => .error screenshotFailMsg
          | some s =>
              .ok (.auto { success := true
                           message := "Automation completed"
                           data := some steps
                           screenshot := some (dataUrl s) })

/-- `execute_actions`: the outer `except` turns an escaped exception into a
failure response with a best-effort screenshot, and the `finally` closes
the context and the browser on every exit path. -/
def execute_actions (env : Env) (actions : List Action)
    (startingUrl : Option String) : ExecResult :=
  match execBody env actions startingUrl with
  | .ok resp => { response := resp, contextClosed := true, browserClosed := true }
  | .error e =>
      match env.screenshot with
      | some s =>
          { response := .auto { success := false
                                message := "Automation failed: " ++ e
                                data := none
                                screenshot := some (dataUrl s) }
            contextClosed := true, browserClosed := true }
      | none =>
          { response := .auto { success := false
                                message := "Automation failed: " ++ e
                                data := none
                                screenshot := none }
            contextClosed := true, browserClosed := true }

/-- Caller-supplied credentials dict; `credentials.get(k, "")`. -/
abbrev Credentials := List (String × String)

/-- `credentials.get(k, "")`. -/
def credGet (c : Credentials) (k : String) : String := (List.lookup k c).getD ""

/-- Python `s.lower()` (ASCII selectors; character-wise lowering). -/
def pyLower (s : String) : String := String.mk (s.toList.map Char.toLower)

/-- `pat` occurs as a contiguous run inside `s`. -/
def hasSubList (pat : List Char) : List Char → Bool
  | [] => pat.isEmpty
  | d :: ds => List.isPrefixOf pat (d :: ds) || hasSubList pat ds

/-- Python `pat in s` substring test. -/
def strContains (s pat : String) : Bool := hasSubList pat.toList s.toList

/-- `"text" in action and action["text"] == sentinel`. -/
def textEquals (a : Action) (sentinel : String) : Bool :=
  match lookupField a "text" with
  | some v => v = .str sentinel
  | none => false

/-- The credential-substitution pass of `interact` applied to one action:
a `fill` whose text is the username sentinel gets the username; otherwise a
`fill` whose selector contains `password` (case-insensitively) or whose
text is the password sentinel gets the password; a `login` action gets
`username`/`password` fields. Raised `KeyError`s/`AttributeError`s
propagate out of the endpoint. -/
def substAction (creds : Credentials) (a : Action) : Except String Action :=
  match getField a "type" with
  | .error e => .error e
  | .ok tv =>
      if tv = .str "fill" then
        if textEquals a "YOUR_USERNAME" then
          .ok (setField a "text" (.str (credGet creds "username")))
        else
          match getStrField a "selector" with
          | .error e => .error e
          | .ok sel =>
              if strContains (pyLower sel) "password" || textEquals a "YOUR_PASSWORD" then
                .ok (setField a "text" (.str (credGet creds "password")))
              else
                .ok a
      else if tv = .str "login" ∧ (lookupField a "username_selector").isSome then
        .ok (setField (setField a "username" (.str (credGet creds "username")))
          "password" (.str (credGet creds "password")))
      else
        .ok a

/-- The substitution loop over the whole plan (a raised exception aborts the
endpoint immediately). -/
def substActions (creds : Credentials) : List Action → Except String (List Action)
  | [] => .ok []
  | a :: rest =>
      match substAction creds a with
      | .error e => .error e
      | .ok a' =>
          match substActions creds rest with
          | .error e => .error e
          | .ok rest' => .ok (a' :: rest')

/-- The `step_result` the loop records for one non-`like_post` action. -/
def stepFor (env : Env) (a : Action) : StepResult :=
  match dispatch env a with
  | .ok _ => { action := a, success := true, error := none, screenshot := none }
  | .error e =>
      { action := a, success := false, error := some e, screenshot := env.screenshot }

/-- A concrete oracle in which every browser primitive succeeds, the feed
holds one post, and the like button toggles both observed attributes. -/
def envHappy : Env :=
  { gotoStartOk := true
    gotoStartErr := "net::ERR_NAME_NOT_RESOLVED"
    networkIdleOk := true
    gotoOk := fun _ => true
    waitSelOk := fun _ => true
    clickOk := fun _ => true
    fillOk := fun _ => true
    pressOk := fun _ _ => true
    evalOk := true
    feedOk := true
    postCount := 1
    primaryBtn := fun _ => true
    fallbackBtn := fun _ => false
    beforeAttrs := fun _ =>
      { aria_pressed := some "false", aria_label := some "React Like",
        classes := some "react-button" }
    afterAttrs := fun _ =>
      { aria_pressed := some "true", aria_label := some "React Undo",
        classes := some "react-button active" }
    screenshot := some "SHOT" }

/-- An oracle in which the click toggles the pressed-state flag but leaves
the accessible label unchanged (the class list changes). -/
def envPressedOnly : Env :=
  { envHappy with
    beforeAttrs := fun _ =>
      { aria_pressed := some "false", aria_label := some "React Like",
        classes := some "react-button" }
    afterAttrs := fun _ =>
      { aria_pressed := some "true", aria_label := some "React Like",
        classes := some "react-button active" } }

/-- A concrete `like_post` action asking for the first post. -/
def likeAct : Action := [("type", .str "like_post"), ("index", .num 1)]

/-- The dict the handler returns for a successful like in `envHappy`. -/
def likeOkReturn : LikeReturn :=
  { success := true
    message := "Successfully liked post"
    debugBefore := some { aria_pressed := "false", aria_label := "React Like",
                          classes := "react-button" }
    debugAfter := some { aria_pressed := "true", aria_label := "React Undo",
                         classes := "react-button active" }
    debugError := none
    debugScreenshot := none }

/-- A concrete plan of one selector-less `press` and one `comment_post`. -/
def planPressComment : List Action :=
  [[("type", .str "press")], [("type", .str "comment_post"), ("index", .num 1)]]

/-- A concrete `click` action. -/
def clickAct : Action := [("type", .str "click"), ("selector", .str "#btn")]

/-- The credentials of the substitution test. -/
def credsUP : Credentials := [("username", "u"), ("password", "p")]

/-- `envHappy` with three posts in the feed. -/
def envThree : Env := { envHappy with postCount := 3 }

/-- `envHappy` whose initial navigation fails. -/
def envNavFail : Env := { envHappy with gotoStartOk := false }

/-- A `like_post` action requesting post 9. -/
def likeActNine : Action := [("type", .str "like_post"), ("index", .num 9)]

/-- A fill carrying the username sentinel behind a password-ish selector. -/
def fillUserPwSel : Action :=
  [("type", .str "fill"), ("selector", .str "#login-Password"),
   ("text", .str "YOUR_USERNAME")]

/-- A fill with ordinary text behind a password-ish selector. -/
def fillPlainPwSel : Action :=
  [("type", .str "fill"), ("selector", .str "#login-Password"),
   ("text", .str "query text")]

/- ## Supporting lemmas -/

theorem lookupField_setField_self (a : Action) (k : String) (v : JValue) :
    lookupField (setField a k v) k = some v := by
  induction a with
  | nil => simp [setField, lookupField]
  | cons p rest ih =>
      obtain ⟨k', v'⟩ := p
      by_cases h : k' = k
      · simp [setField, h, lookupField]
      · simp [setField, h, lookupField, ih]

/-- Only the `like_post` branch of the dispatch chain can produce a handler
return value. -/
theorem dispatch_some_eq_like (env : Env) (a : Action) (r : LikeReturn)
    (h : dispatch env a = .ok (some r)) :
    lookupField a "type" = some (JValue.str "like_post") := by
  unfold dispatch getField at h
  cases hl : lookupField a "type" with
  | none => rw [hl] at h; simp at h
  | some tv =>
      rw [hl] at h
      simp only [] at h
      split_ifs at h with h1 h2 h3 h4 h5 h6 h7 h8 h9
      · cases hx : doNavigate env a <;> simp [hx, Except.map] at h
      · cases hx : doClick env a <;> simp [hx, Except.map] at h
      · cases hx : doFill env a <;> simp [hx, Except.map] at h
      · cases hx : doPress env a <;> simp [hx, Except.map] at h
      · cases hx : doWait a <;> simp [hx, Except.map] at h
      · cases hx : doScroll env a <;> simp [hx, Except.map] at h
      · cases hx : doLogin env a <;> simp [hx, Except.map] at h
      · cases hx : doSearch env a <;> simp [hx, Except.map] at h
      · exact congrArg some h9
      · simp at h

/-- The loop on a plan with no `like_post` action records one `stepFor` step
per action, in order, appended after the accumulator. -/
theorem runLoop_no_like (env : Env) (actions : List Action)
    (h : ∀ a ∈ actions, lookupField a "type" ≠ some (JValue.str "like_post")) :
    ∀ acc, runLoop env actions acc = .completed (acc ++ actions.map (stepFor env)) := by
  induction actions with
  | nil => intro acc; simp [runLoop]
  | cons a rest ih =>
      intro acc
      have ha := h a (List.mem_cons_self a rest)
      have hrest : ∀ b ∈ rest, lookupField b "type" ≠ some (JValue.str "like_post") :=
        fun b hb => h b (List.mem_cons_of_mem a hb)
      unfold runLoop
      cases hd : dispatch env a with
      | ok o =>
          cases o with
          | some r => exact absurd (dispatch_some_eq_like env a r hd) ha
          | none => simp only [hd]; rw [ih hrest]; simp [stepFor, hd]
      | error e => simp only [hd]; rw [ih hrest]; simp [stepFor, hd]

/- ## Claims -/

/-- C2: for every action list with no `like_post` action, the loop completes
(no fatal error escapes it) and records exactly one StepResult per action,
in the original order — also for actions whose dispatch fails — with each
step holding its own action. -/
theorem executor_one_step_per_action (env : Env) (actions : List Action)
    (h : ∀ a ∈ actions, lookupField a "type" ≠ some (JValue.str "like_post")) :
    runLoop env actions [] = .completed (actions.map (stepFor env)) ∧
      ∀ a, (stepFor env a).action = a := by
  refine ⟨by simpa using runLoop_no_like env actions h [], fun a => ?_⟩
  unfold stepFor
  cases dispatch env a with
  | ok o => rfl
  | error e => rfl

/-- Witness for C2 on a concrete plan whose first step fails (selector-less
press) and whose second is an unimplemented kind. -/
theorem executor_one_step_per_action_witness :
    (∀ a ∈ planPressComment,
        lookupField a "type" ≠ some (JValue.str "like_post")) ∧
      (runLoop envHappy planPressComment [] =
          .completed (planPressComment.map (stepFor envHappy)) ∧
        ∀ a, (stepFor envHappy a).action = a) :=
  ⟨by decide, executor_one_step_per_action envHappy planPressComment (by decide)⟩

/-- C5: a `press` action without a `selector` field yields a failed
StepResult carrying exactly the explicit "requires a selector" message
(with a best-effort screenshot), and the loop continues with the remaining
actions. -/
theorem press_without_selector_explicit_failure (env : Env) (a : Action)
    (rest : List Action) (acc : List StepResult)
    (ht : lookupField a "type" = some (JValue.str "press"))
    (hs : lookupField a "selector" = none) :
    runLoop env (a :: rest) acc =
      runLoop env rest
        (acc ++ [{ action := a, success := false,
                   error := some pressNeedsSelectorMsg,
                   screenshot := env.screenshot }]) := by
  have hd : dispatch env a = .error pressNeedsSelectorMsg := by
    unfold dispatch getField
    rw [ht]
    simp [doPress, hs, Except.map]
  conv_lhs => unfold runLoop
  simp only [hd]

/-- Witness for C5 at a concrete selector-less press action. -/
theorem press_without_selector_explicit_failure_witness :
    lookupField ([("type", JValue.str "press")] : Action) "type" =
        some (JValue.str "press") ∧
      lookupField ([("type", JValue.str "press")] : Action) "selector" = none ∧
      runLoop envHappy ([("type", JValue.str "press")] :: [clickAct]) [] =
        runLoop envHappy [clickAct]
          ([] ++ [{ action := [("type", JValue.str "press")], success := false,
                    error := some pressNeedsSelectorMsg,
                    screenshot := envHappy.screenshot }]) :=
  ⟨rfl, rfl,
    press_without_selector_explicit_failure envHappy _ [clickAct] [] rfl rfl⟩

/-- C7: an action whose `type` is none of the implemented kinds (such as
`comment_post` or `share_post`) is recorded as a successful step — no
error, no screenshot, no browser interaction — and the loop continues. -/
theorem unknown_action_silent_success (env : Env) (t : String) (a : Action)
    (rest : List Action) (acc : List StepResult)
    (ht : lookupField a "type" = some (JValue.str t))
    (hu : t ∉ ["navigate", "click", "fill", "press", "wait", "scroll",
               "login", "search", "like_post"]) :
    runLoop env (a :: rest) acc =
      runLoop env rest
        (acc ++ [{ action := a, success := true, error := none,
                   screenshot := none }]) := by
  simp only [List.mem_cons, List.not_mem_nil, or_false, not_or] at hu
  obtain ⟨h1, h2, h3, h4, h5, h6, h7, h8, h9⟩ := hu
  have hd : dispatch env a = .ok none := by
    unfold dispatch getField
    rw [ht]
    simp [h1, h2, h3, h4, h5, h6, h7, h8, h9]
  conv_lhs => unfold runLoop
  simp only [hd]

/-- Witness for C7 at a concrete `comment_post` action. -/
theorem unknown_action_silent_success_witness :
    lookupField ([("type", JValue.str "comment_post"), ("index", JValue.num 1)] :
        Action) "type" = some (JValue.str "comment_post") ∧
      ("comment_post" ∉ ["navigate", "click", "fill", "press", "wait", "scroll",
          "login", "search", "like_post"]) ∧
      runLoop envHappy
          ([("type", JValue.str "comment_post"), ("index", JValue.num 1)] :: [clickAct]) [] =
        runLoop envHappy [clickAct]
          ([] ++ [{ action := [("type", JValue.str "comment_post"), ("index", JValue.num 1)],
                    success := true, error := none, screenshot := none }]) :=
  ⟨rfl, by decide,
    unknown_action_silent_success envHappy "comment_post" _ [clickAct] [] rfl (by decide)⟩

/-- C8: with credentials `{username := "u", password := "p"}`, the
substitution pass maps the `YOUR_USERNAME` fill to text `"u"` and the
`YOUR_PASSWORD` fill to text `"p"`, leaving every other field unchanged. -/
theorem credential_substitution_example :
    substActions credsUP
        [[("type", .str "fill"), ("selector", .str "#user"), ("text", .str "YOUR_USERNAME")],
         [("type", .str "fill"), ("selector", .str "#pass"), ("text", .str "YOUR_PASSWORD")]] =
      .ok [[("type", .str "fill"), ("selector", .str "#user"), ("text", .str "u")],
           [("type", .str "fill"), ("selector", .str "#pass"), ("text", .str "p")]] := by
  rfl

/-- C9: on every exit path of `execute_actions` — normal completion, the
`like_post` short circuit, and a fatal error escaping the loop — the
browser context and the browser are closed before the function returns. -/
theorem teardown_on_every_exit_path (env : Env) (actions : List Action)
    (url : Option String) :
    (execute_actions env actions url).contextClosed = true ∧
      (execute_actions env actions url).browserClosed = true := by
  unfold execute_actions
  cases execBody env actions url with
  | ok r => exact ⟨rfl, rfl⟩
  | error e => cases env.screenshot <;> exact ⟨rfl, rfl⟩

/-- C3: when the loop reaches a `like_post` action and its handler yields a
result object — its success path or its failure path — that object is
returned from the executor directly: no StepResult is appended for the
`like_post` action, no later action runs, and `execute_actions` passes the
handler's dict through as the whole response. -/
theorem like_post_short_circuits (env : Env) (a : Action) (rest : List Action)
    (acc : List StepResult) (r : LikeReturn)
    (ht : lookupField a "type" = some (JValue.str "like_post"))
    (hr : likePost env a = .ok r) :
    runLoop env (a :: rest) acc = .shortCircuit acc r ∧
      execute_actions env (a :: rest) none =
        { response := .like r, contextClosed := true, browserClosed := true } := by
  have hd : dispatch env a = .ok (some r) := by
    unfold dispatch getField
    rw [ht]
    simp [hr, Except.map]
  have hloop : ∀ acc2 : List StepResult,
      runLoop env (a :: rest) acc2 = .shortCircuit acc2 r := by
    intro acc2
    conv_lhs => unfold runLoop
    simp only [hd]
  have hbody : execBody env (a :: rest) none = .ok (.like r) := by
    unfold execBody
    rw [show navigateStart env none = .ok () from rfl, hloop]
  refine ⟨hloop acc, ?_⟩
  unfold execute_actions
  rw [hbody]

/-- Witness for C3 at a concrete environment in which the like succeeds and
a subsequent click action is pending. -/
theorem like_post_short_circuits_witness :
    lookupField likeAct "type" = some (JValue.str "like_post") ∧
      likePost envHappy likeAct = .ok likeOkReturn ∧
      (runLoop envHappy (likeAct :: [clickAct]) [] = .shortCircuit [] likeOkReturn ∧
        execute_actions envHappy (likeAct :: [clickAct]) none =
          { response := .like likeOkReturn, contextClosed := true,
            browserClosed := true }) :=
  ⟨rfl, rfl, like_post_short_circuits envHappy likeAct [clickAct] [] likeOkReturn rfl rfl⟩

/-- C4: a `like_post` whose 1-based index exceeds the number of posts found
(at least one post existing) resolves to the last available post —
`min(index-1, count-1)` — instead of failing, and the handler behaves as if
the last post had been requested. -/
theorem like_post_index_clamped (env : Env) (a : Action) (k : Int)
    (hidx : lookupField a "index" = some (JValue.num k))
    (hn : 0 < env.postCount)
    (hk : (env.postCount : Int) < k) :
    resolvePostIndex env a = .ok (env.postCount - 1) ∧
      likePostBody env a =
        likePostBody env (setField a "index" (JValue.num (env.postCount : Int))) := by
  have hres : resolvePostIndex env a = .ok (env.postCount - 1) := by
    unfold resolvePostIndex getIndexDefault
    rw [hidx]
    have hmin : min (k - 1) ((env.postCount : Int) - 1) = (env.postCount : Int) - 1 :=
      min_eq_right (by omega)
    simp only [hmin]
    unfold pyIndex
    rw [if_pos ⟨by omega, by omega⟩]
    congr 1
    omega
  have hres2 : resolvePostIndex env (setField a "index" (JValue.num (env.postCount : Int))) =
      .ok (env.postCount - 1) := by
    unfold resolvePostIndex getIndexDefault
    rw [lookupField_setField_self]
    simp only [min_self]
    unfold pyIndex
    rw [if_pos ⟨by omega, by omega⟩]
    congr 1
    omega
  refine ⟨hres, ?_⟩
  unfold likePostBody
  rw [hres, hres2]

/-- Witness for C4: three posts, requested index 9, resolved to post 2
(0-based), i.e. the third and last post. -/
theorem like_post_index_clamped_witness :
    lookupField likeActNine "index" = some (JValue.num 9) ∧
      0 < envThree.postCount ∧ ((envThree.postCount : Int) < 9) ∧
      (resolvePostIndex envThree likeActNine = .ok (envThree.postCount - 1) ∧
        likePostBody envThree likeActNine =
          likePostBody envThree
            (setField likeActNine "index" (JValue.num (envThree.postCount : Int)))) :=
  ⟨rfl, by decide, by decide,
    like_post_index_clamped envThree likeActNine 9 rfl (by decide) (by decide)⟩

/-- C6: when the initial navigation fails, the request is aborted before any
action runs: the response carries no steps at all, reports failure with the
navigation error in its message, and holds a screenshot exactly when one
could be captured — independently of the action list. -/
theorem initial_navigation_failure_aborts (env : Env) (actions : List Action)
    (url : String) (hnav : env.gotoStartOk = false) :
    execute_actions env actions (some url) =
      { response := .auto
          { success := false
            message := "Automation failed: " ++
              ("500: Failed to navigate to starting URL: " ++ env.gotoStartErr)
            data := none
            screenshot := Option.map dataUrl env.screenshot }
        contextClosed := true
        browserClosed := true } := by
  have hn : navigateStart env (some url) =
      .error ("500: Failed to navigate to starting URL: " ++ env.gotoStartErr) := by
    unfold navigateStart
    rw [hnav]
    simp
  have hbody : execBody env actions (some url) =
      .error ("500: Failed to navigate to starting URL: " ++ env.gotoStartErr) := by
    unfold execBody
    rw [hn]
  unfold execute_actions
  rw [hbody]
  cases hs : env.screenshot <;> simp [hs]

/-- Witness for C6: a navigation failure with a pending `like_post` action
produces the failing, step-free response with its screenshot. -/
theorem initial_navigation_failure_aborts_witness :
    envNavFail.gotoStartOk = false ∧
      execute_actions envNavFail [likeAct] (some "https://linkedin.com") =
        { response := .auto
            { success := false
              message := "Automation failed: " ++
                ("500: Failed to navigate to starting URL: " ++ envNavFail.gotoStartErr)
              data := none
              screenshot := Option.map dataUrl envNavFail.screenshot }
          contextClosed := true
          browserClosed := true } :=
  ⟨rfl, initial_navigation_failure_aborts envNavFail [likeAct] "https://linkedin.com" rfl⟩

/-- C10: the username sentinel takes precedence — a fill whose text is
`YOUR_USERNAME` receives the username credential whatever its selector
(even one containing "password") — and the selector-based password rule
only fires on fills whose text is not `YOUR_USERNAME`. -/
theorem username_sentinel_precedence (creds : Credentials) (a b : Action)
    (sel : String)
    (hta : lookupField a "type" = some (JValue.str "fill"))
    (hua : textEquals a "YOUR_USERNAME" = true)
    (htb : lookupField b "type" = some (JValue.str "fill"))
    (hsb : lookupField b "selector" = some (JValue.str sel))
    (hub : textEquals b "YOUR_USERNAME" = false)
    (hpb : strContains (pyLower sel) "password" = true) :
    substAction creds a =
        .ok (setField a "text" (JValue.str (credGet creds "username"))) ∧
      substAction creds b =
        .ok (setField b "text" (JValue.str (credGet creds "password"))) := by
  constructor
  · unfold substAction getField
    rw [hta]
    simp [hua]
  · unfold substAction getField getStrField
    rw [htb, hsb]
    simp [hub, hpb]

/-- Witness for C10: both a `YOUR_USERNAME` fill and a plain fill behind a
selector containing "Password". -/
theorem username_sentinel_precedence_witness :
    lookupField fillUserPwSel "type" = some (JValue.str "fill") ∧
      textEquals fillUserPwSel "YOUR_USERNAME" = true ∧
      lookupField fillPlainPwSel "type" = some (JValue.str "fill") ∧
      lookupField fillPlainPwSel "selector" = some (JValue.str "#login-Password") ∧
      textEquals fillPlainPwSel "YOUR_USERNAME" = false ∧
      strContains (pyLower "#login-Password") "password" = true ∧
      (substAction credsUP fillUserPwSel =
          .ok (setField fillUserPwSel "text" (JValue.str (credGet credsUP "username"))) ∧
        substAction credsUP fillPlainPwSel =
          .ok (setField fillPlainPwSel "text" (JValue.str (credGet credsUP "password")))) :=
  ⟨rfl, rfl, rfl, rfl, rfl, by decide,
    username_sentinel_precedence credsUP fillUserPwSel fillPlainPwSel
      "#login-Password" rfl rfl rfl rfl rfl (by decide)⟩

/-- C1 counterexample: in `envPressedOnly` the pressed-state flag changes
across the click — so under the claimed rule ("failed exactly when both
attributes are unchanged") the like must be treated as succeeded — and
only the label stays the same, yet the handler reports failure. -/
theorem like_verification_counterexample :
    (snapOf (envPressedOnly.afterAttrs 0)).aria_pressed ≠
        (snapOf (envPressedOnly.beforeAttrs 0)).aria_pressed ∧
      likePost envPressedOnly likeAct =
        .ok { success := false
              message := stateUnchangedMsg
              debugBefore := none
              debugAfter := none
              debugError := some stateUnchangedMsg
              debugScreenshot := some "SHOT" } :=
  ⟨by decide, rfl⟩

/-- C1 (amended): with the feed present, at least one post, a resolved post
index whose like button is found, and a capturable screenshot, the
`like_post` handler reports success exactly when BOTH the pressed-state
flag and the accessible label changed between the snapshots; if either one
is unchanged it reports failure — regardless of class-list changes. -/
theorem like_verification_requires_both_changed (env : Env) (a : Action)
    (i : Nat) (s : String)
    (hfeed : env.feedOk = true)
    (hn : 0 < env.postCount)
    (hres : resolvePostIndex env a = .ok i)
    (hbtn : (env.primaryBtn i || env.fallbackBtn i) = true)
    (hshot : env.screenshot = some s) :
    ∃ r, likePost env a = .ok r ∧
      (r.success = true ↔
        ((snapOf (env.afterAttrs i)).aria_pressed ≠
            (snapOf (env.beforeAttrs i)).aria_pressed ∧
          (snapOf (env.afterAttrs i)).aria_label ≠
            (snapOf (env.beforeAttrs i)).aria_label)) := by
  have hne : env.postCount ≠ 0 := Nat.pos_iff_ne_zero.mp hn
  by_cases hc :
      (snapOf (env.afterAttrs i)).aria_pressed =
          (snapOf (env.beforeAttrs i)).aria_pressed ∨
        (snapOf (env.afterAttrs i)).aria_label =
          (snapOf (env.beforeAttrs i)).aria_label
  · have hb : likePostBody env a = .error stateUnchangedMsg := by
      unfold likePostBody
      simp [hfeed, hne, hres, hbtn, hc]
    refine ⟨{ success := false, message := stateUnchangedMsg,
              debugBefore := none, debugAfter := none,
              debugError := some stateUnchangedMsg,
              debugScreenshot := some s }, ?_, ?_⟩
    · unfold likePost
      rw [hb, hshot]
    · simp only [Bool.false_eq_true, false_iff, not_and_or, not_not]
      exact hc
  · have hb : likePostBody env a =
        .ok { success := true, message := "Successfully liked post",
              debugBefore := some (snapOf (env.beforeAttrs i)),
              debugAfter := some (snapOf (env.afterAttrs i)),
              debugError := none, debugScreenshot := none } := by
      unfold likePostBody
      simp [hfeed, hne, hres, hbtn, hc]
    refine ⟨_, by unfold likePost; rw [hb], ?_⟩
    simp only [true_iff]
    exact not_or.mp hc

/-- Witness for the amended C1 at `envHappy`, where both attributes change
and the handler succeeds. -/
theorem like_verification_requires_both_changed_witness :
    envHappy.feedOk = true ∧ 0 < envHappy.postCount ∧
      resolvePostIndex envHappy likeAct = .ok 0 ∧
      (envHappy.primaryBtn 0 || envHappy.fallbackBtn 0) = true ∧
      envHappy.screenshot = some "SHOT" ∧
      (∃ r, likePost envHappy likeAct = .ok r ∧
        (r.success = true ↔
          ((snapOf (envHappy.afterAttrs 0)).aria_pressed ≠
              (snapOf (envHappy.beforeAttrs 0)).aria_pressed ∧
            (snapOf (envHappy.afterAttrs 0)).aria_label ≠
              (snapOf (envHappy.beforeAttrs 0)).aria_label))) :=
  ⟨rfl, by decide, rfl, rfl, rfl,
    like_verification_requires_both_changed envHappy likeAct 0 "SHOT"
      rfl (by decide) rfl rfl rfl⟩

end BrowserAgent
